import Mathlib

/-!
Shallow embedding of the rockpi-penta daemon coordination core
(source files `misc.py`, `fan.py`, `oled.py`).

Modelling conventions: Python floats (wall-clock times, temperatures,
duty-cycle percentages) become rationals; Python ints become `Int`/`Nat`;
a Python exception becomes an `Except`/`Option` result; the mutable
default-argument caches of `fan.get_dc`/`fan.change_dc` and the
module-level sample dictionaries of `misc.py` become explicit state that
is threaded through each call.  Loops are given explicit fuel (a list of
sampled inputs), and each iteration of a loop body is translated
statement by statement from the Python source.
-/

namespace RockpiPenta

/-- Configuration of the fan curve, as read by `misc.read_conf` into
`conf["fan"]`: the four temperature anchors `lv0..lv3` and the
`linear` flag.  The percent table `lv2dc` of `misc.py` is the fixed
ordered map lv3 ↦ 100, lv2 ↦ 75, lv1 ↦ 50, lv0 ↦ 25 and is inlined
below. -/
structure FanConf where
  lv0 : ℚ
  lv1 : ℚ
  lv2 : ℚ
  lv3 : ℚ
  linear : Bool

/-- Embedding of `misc.fan_temp2dc`.  In linear mode it computes
`slope = (100 - 25) / (lv3 - lv0)` when the denominator is positive and
`1.0` otherwise, then clamps `slope * (temp - lv0) + 25` to
`[25, 100]` via `min`/`max` exactly as the source does.  In step mode
it scans the `lv2dc` table in its insertion order lv3, lv2, lv1, lv0
and returns the percent of the first level whose threshold is met,
falling through to `10`. -/
def fan_temp2dc (c : FanConf) (temp : ℚ) : ℚ :=
  if c.linear then
    let lv0_percent : ℚ := 25
    let lv3_percent : ℚ := 100
    let base_temp := c.lv0
    let denominator := c.lv3 - base_temp
    let slope := if denominator > 0 then (lv3_percent - lv0_percent) / denominator else 1
    min lv3_percent (max (slope * (temp - base_temp) + lv0_percent) lv0_percent)
  else
    if temp ≥ c.lv3 then 100
    else if temp ≥ c.lv2 then 75
    else if temp ≥ c.lv1 then 50
    else if temp ≥ c.lv0 then 25
    else 10

/-- State of the mutable default-argument `cache` of `fan.get_dc`:
`cache.get("time", 0)` defaults to `0`, and `cache["dc"]` is absent
until the first recomputation (`none` here; reading it while absent is
a Python `KeyError`). -/
structure DcCache where
  time : ℚ
  dc : Option ℚ

/-- Embedding of `fan.get_dc`.  When the fan is switched off it returns
`0.1` without touching the cache.  Otherwise it recomputes the duty
cycle from the temperature only when strictly more than 5 seconds have
elapsed since `cache["time"]`, storing the new time and value;
otherwise it returns the cached value (`none` models the `KeyError`
raised when `cache["dc"]` was never set).  The two `time.time()` calls
of one Python invocation are modelled as the single instant `now`. -/
def get_dc (c : FanConf) (running : Bool) (now temp : ℚ) (cache : DcCache) :
    Option ℚ × DcCache :=
  if running = false then (some (1 / 10), cache)
  else if now - cache.time > 5 then
    (some (fan_temp2dc c temp), { time := now, dc := some (fan_temp2dc c temp) })
  else (cache.dc, cache)

/-- Embedding of `fan.change_dc`.  The mutable cache holds the last
written duty cycle (initially absent, i.e. `none`).  A hardware write
`pin13.write(1 - dc/100)` is emitted only when the new duty cycle
differs from the cached one; the emitted off-ratio is returned in the
second component. -/
def change_dc (dc : ℚ) (cache : Option ℚ) : Option ℚ × Option ℚ :=
  if cache ≠ some dc then (some dc, some (1 - dc / 100)) else (cache, none)

/-- Embedding of the `fan.running` polling loop: each event supplies the
wall-clock time of the tick, the measured temperature, and the
`misc.fan_running()` flag.  The run returns the instrumented trace:
the list of timestamps at which the duty cycle was recomputed
(detected as a change of `cache["time"]`), and the list of duty cycles
actually written to the PWM hardware.  A `KeyError` from `get_dc`
(cached value read before any computation) kills the Python process, so
the trace ends there. -/
def run_fan (c : FanConf) :
    List (ℚ × ℚ × Bool) → DcCache → Option ℚ → List ℚ × List ℚ
  | [], _, _ => ([], [])
  | (now, temp, r) :: rest, cache, pwm =>
    match get_dc c r now temp cache with
    | (none, _) => ([], [])
    | (some dc, cache2) =>
      let cw := change_dc dc pwm
      let t := run_fan c rest cache2 cw.1
      ((if cache2.time = cache.time then t.1 else cache2.time :: t.1),
       match cw.2 with
       | some _ => dc :: t.2
       | none => t.2)

/-- Raw counter sample of one device, as built by
`misc.get_interface_io`: the cumulative rx/tx byte counters and the
`time.time()` at which they were read. -/
structure RawSample where
  rx : ℤ
  tx : ℤ
  time : ℚ
deriving DecidableEq

/-- Derived rx/tx transfer rates in MB/s, one entry of
`interface_io_rate` in `misc.py`. -/
structure Rate where
  rx : ℚ
  tx : ℚ
deriving DecidableEq

/-- Embedding of `misc.get_interface_io_rate` for one interface.
`prev` is the cached entry of `raw_interface_io` for this device
(`none` before the first sample) and `raw` the freshly read sample.
On a subsequent sample the source divides the counter deltas by
`duration = raw.time - prev.time` with no guard: a zero duration is a
Python `ZeroDivisionError` (modelled as `Except.error`), and a negative
duration silently produces a negative rate.  On success the new rate
dictionary entry and the unconditionally replaced cache entry are
returned. -/
def get_interface_io_rate (prev : Option RawSample) (raw : RawSample) :
    Except Unit (Rate × RawSample) :=
  match prev with
  | some p =>
    if raw.time - p.time = 0 then Except.error ()
    else Except.ok
      ({ rx := (((raw.rx - p.rx : ℤ) : ℚ) / (raw.time - p.time)) / 1024 / 1024,
         tx := (((raw.tx - p.tx : ℤ) : ℚ) / (raw.time - p.time)) / 1024 / 1024 }, raw)
  | none => Except.ok ({ rx := 0, tx := 0 }, raw)

/-- Gesture actions recognised by `misc.watch_key`, in the insertion
order of its `pattern` dictionary. -/
inductive KeyAction
  | click
  | twice
  | press
deriving DecidableEq

/-- Length of the maximal run of the bit `b` at the front of `s`. -/
def countLeading (b : Bool) : List Bool → ℕ
  | [] => 0
  | x :: xs => if x = b then countLeading b xs + 1 else 0

/-- Anchored (prefix) match of the Python regex `1+0+1{wait,}` used for
`click` in `misc.watch_key` (`wait = int(conf["time"]["twice"] * 10)`).
Because consecutive regex blocks require opposite characters, each
`1+`/`0+` block must consume an entire run of the sample string, so a
prefix match exists iff the string decomposes as a run of ones, a run
of zeros, and then at least `wait` further ones. -/
def match_click (wait : ℕ) (s : List Bool) : Bool :=
  let a := countLeading true s
  let s1 := s.drop a
  let b := countLeading false s1
  decide (1 ≤ a) && decide (1 ≤ b) && decide (wait ≤ countLeading true (s1.drop b))

/-- Anchored (prefix) match of the Python regex `1+0+1+0+1{3,}` used
for `twice` in `misc.watch_key`: two full press/release cycles followed
by at least three consecutive ones. -/
def match_twice (s : List Bool) : Bool :=
  let a := countLeading true s
  let s1 := s.drop a
  let b := countLeading false s1
  let s2 := s1.drop b
  let c := countLeading true s2
  let s3 := s2.drop c
  let d := countLeading false s3
  decide (1 ≤ a) && decide (1 ≤ b) && decide (1 ≤ c) && decide (1 ≤ d) &&
    decide (3 ≤ countLeading true (s3.drop d))

/-- Anchored (prefix) match of the Python regex `1+0{size,}` used for
`press` in `misc.watch_key` (`size = int(conf["time"]["press"] * 10)`):
a run of ones followed by at least `size` zeros. -/
def match_press (size : ℕ) (s : List Bool) : Bool :=
  let a := countLeading true s
  decide (1 ≤ a) && decide (size ≤ countLeading false (s.drop a))

/-- Embedding of the per-sample classification of `misc.read_key`: the
`for t, p in pattern.items()` loop tests the patterns in the insertion
order of the dictionary built by `misc.watch_key`, namely `click`,
`twice`, `press`, and returns the key of the first pattern that
matches the current window. -/
def read_key_classify (wait size : ℕ) (s : List Bool) : Option KeyAction :=
  if match_click wait s then some KeyAction.click
  else if match_twice s then some KeyAction.twice
  else if match_press size s then some KeyAction.press
  else none

/-- Embedding of the window update `s = s[-size:] + str(pin11.read())`
in `misc.read_key`.  Python slicing `s[-size:]` keeps the last
`min(len s, size)` characters when `size > 0` but the whole string when
`size = 0` (since `s[-0:]` is `s[0:]`). -/
def read_key_window (size : ℕ) (s : List Bool) (bit : Bool) : List Bool :=
  (if size = 0 then s else s.drop (s.length - size)) ++ [bit]

/-- The sample window built by `misc.read_key` after feeding the given
bit sequence, starting from the empty string. -/
def read_key_run (size : ℕ) (bits : List Bool) : List Bool :=
  bits.foldl (read_key_window size) []

/-- Argument record of one `draw.text(**item)` call, abstracted as an
opaque token (the pixel layout is out of scope). -/
abbrev TextItem := ℕ

/-- A display page object (`GeneratedPage` subclass in `oled.py`):
`get_page_text` either returns the list of text regions for the `action`
flag it receives, or raises (modelled as `Except.error`). -/
structure Page where
  get_page_text : Bool → Except Unit (List TextItem)

/-- Observable side effects of one iteration of `oled.display_process`
on the physical display: a `draw.text` call, the `disp_show()` write to
the display device, or the `print(ex)` logging of a caught render
exception. -/
inductive Effect
  | drawText (item : TextItem)
  | dispShow
  | logError
deriving DecidableEq

/-- Shared state touched by one iteration of `oled.display_process`:
the remaining page rotation list, `last_page[0]`, `next_time[0]` and
`refresh_time[0]`. -/
structure DisplayState where
  display_list : List Page
  last_page : Option Page
  next_time : ℚ
  refresh_time : ℚ

/-- Effects produced by the `if last_page[0]:` block of
`oled.display_process`: if there is a current page, its text is
generated inside a `try`; on success every item is drawn, on an
exception the error is printed instead — and in either case
`disp_show()` is then executed, because it sits after the
`try`/`except` block, not inside the `try`. -/
def render_effects (lp : Option Page) (action : Bool) : List Effect :=
  match lp with
  | none => []
  | some p =>
    (match p.get_page_text action with
     | Except.ok items => items.map Effect.drawText
     | Except.error _ => [Effect.logError]) ++ [Effect.dispShow]

/-- Embedding of one iteration of the `oled.display_process` consumer
loop body (everything under `with display_lock:` for one queue message
`action`).  `regen` is the page list produced by
`gen_display_pages_list()` if the rotation list is exhausted; `now`
stands for the `time.time()` calls of this iteration.  On
`action = true` with an empty page list, `display_list[0]` raises an
`IndexError` (`Except.error`).  Otherwise the new shared state and the
display effects are returned; on `action = true` the shown page is also
popped from the rotation list. -/
def display_process_step (s : DisplayState) (regen : List Page)
    (now sliderDur refreshPeriod : ℚ) (action : Bool) :
    Except Unit (DisplayState × List Effect) :=
  let dl := if s.display_list.length = 0 then s.display_list ++ regen else s.display_list
  let nt := if action then now + sliderDur else s.next_time
  let rt := now + refreshPeriod
  if action then
    match dl with
    | [] => Except.error ()
    | p :: rest =>
      Except.ok ({ display_list := rest, last_page := some p,
                   next_time := nt, refresh_time := rt },
                 render_effects (some p) action)
  else
    Except.ok ({ display_list := dl, last_page := s.last_page,
                 next_time := nt, refresh_time := rt },
               render_effects s.last_page action)

/-- Embedding of the `while misc.conf["slider"]["auto"]:` loop body of
`oled.auto_slider`, run for `n` iterations starting at time `t`.  When
the configured slider duration is truthy (nonzero) the loop sets
`next_time[0] = time.time() + duration`, sleeps until that deadline and
enqueues `True`; the enqueue instant is idealised as exactly the
deadline.  When the duration is falsy it only sleeps.  When `auto` is
off the loop body never runs. -/
def auto_slider_run (auto : Bool) (d : ℚ) : ℕ → ℚ → List (ℚ × Bool)
  | 0, _ => []
  | n + 1, t =>
    if auto = true then
      if d = 0 then auto_slider_run auto d n t
      else (t + d, true) :: auto_slider_run auto d n (t + d)
    else []

/-- Embedding of `oled.auto_slider` as the timed sequence of messages
it enqueues: the unconditional initial `display_queue.put(True)` at
startup time `t0`, followed by the messages of the `while` loop. -/
def auto_slider_events (auto : Bool) (d : ℚ) (n : ℕ) (t0 : ℚ) : List (ℚ × Bool) :=
  (t0, true) :: auto_slider_run auto d n t0

/-- Embedding of `oled.refresh_display` as the sequence of queue
messages it enqueues.  `times` is the sequence of `time.time()` values
observed at the successive loop iterations and `rt` the current
`refresh_time[0]`.  The `while misc.get_refresh_period():` guard is
re-evaluated each iteration; a refresh period of `0` is falsy, so the
loop body never runs.  When the deadline has passed, the deadline is
pushed out by one refresh period and `False` is enqueued. -/
def refresh_display_run (period : ℚ) : List ℚ → ℚ → List Bool
  | [], _ => []
  | t :: ts, rt =>
    if period = 0 then []
    else if rt < t then false :: refresh_display_run period ts (t + period)
    else refresh_display_run period ts rt

/-- Default step-mode fan configuration (`lv0..lv3 = 35,40,45,50`,
`linear = false`), used as a concrete witness input. -/
def confStep : FanConf := { lv0 := 35, lv1 := 40, lv2 := 45, lv3 := 50, linear := false }

/-- Default fan anchors with `linear = true`, used as a concrete
witness input. -/
def confLin : FanConf := { lv0 := 35, lv1 := 40, lv2 := 45, lv3 := 50, linear := true }

/-- Previous raw sample with a timestamp equal to the current one:
first half of the divide-by-zero failing input. -/
def prevSampleEx : RawSample := { rx := 1000, tx := 2000, time := 100 }

/-- Current raw sample sharing the timestamp of the previous sample:
second half of the divide-by-zero failing input. -/
def currSampleEx : RawSample := { rx := 1500, tx := 2500, time := 100 }

/-- Baseline raw sample for the normal-rate witness. -/
def prevRawEx : RawSample := { rx := 0, tx := 0, time := 0 }

/-- Second raw sample for the normal-rate witness: 2 MiB received and
1 MiB transmitted over two seconds. -/
def currRawEx : RawSample := { rx := 2097152, tx := 1048576, time := 2 }

/-- Sample window `1`, then 18 zeros, then 7 ones: with the default
thresholds (`size = 18`, `wait = 7`) it matches both the `press`
pattern `1+0{18,}` and the `click` pattern `1+0+1{7,}`. -/
def pressClickWindowEx : List Bool :=
  true :: (List.replicate 18 false ++ List.replicate 7 true)

/-- A page whose text generation always raises. -/
def failingPage : Page := { get_page_text := fun _ => Except.error () }

/-- Display state whose rotation list holds exactly the failing page. -/
def displayStateEx : DisplayState :=
  { display_list := [failingPage], last_page := none, next_time := 0, refresh_time := 0 }

/-- Claim C6: in step mode (`linear = false`), `fan_temp2dc` always
returns one of 25, 50, 75, 100, 10 — scanning lv3 down to lv0 and
defaulting to 10 — and is monotonically non-decreasing in the
temperature, for every configuration of the thresholds. -/
theorem fan_temp2dc_step_spec (c : FanConf) (hlin : c.linear = false) :
    (∀ t, fan_temp2dc c t = 25 ∨ fan_temp2dc c t = 50 ∨ fan_temp2dc c t = 75 ∨
      fan_temp2dc c t = 100 ∨ fan_temp2dc c t = 10)
  ∧ ∀ t1 t2, t1 ≤ t2 → fan_temp2dc c t1 ≤ fan_temp2dc c t2 := by
  constructor
  · intro t
    simp only [fan_temp2dc, hlin, Bool.false_eq_true, if_false]
    split_ifs <;> simp
  · intro t1 t2 h
    simp only [fan_temp2dc, hlin, Bool.false_eq_true, if_false]
    split_ifs <;> linarith

/-- Witness for `fan_temp2dc_step_spec` at the default step-mode
configuration and the concrete temperatures 42 and 47. -/
theorem fan_temp2dc_step_spec_witness :
    (fan_temp2dc confStep 42 = 25 ∨ fan_temp2dc confStep 42 = 50 ∨
      fan_temp2dc confStep 42 = 75 ∨ fan_temp2dc confStep 42 = 100 ∨
      fan_temp2dc confStep 42 = 10)
  ∧ fan_temp2dc confStep 42 ≤ fan_temp2dc confStep 47 :=
  ⟨(fan_temp2dc_step_spec confStep rfl).1 42,
   (fan_temp2dc_step_spec confStep rfl).2 42 47 (by decide)⟩

/-- Claim C7: in linear mode, `fan_temp2dc` is 25 at `lv0` and 100 at
`lv3` (whenever the lv3 − lv0 span is positive, which the anchor pair
presupposes), its output is clamped to the interval [25, 100] at every
temperature, and when the span is non-positive the slope is treated as
1.0, i.e. the result is `min 100 (max ((t - lv0) + 25) 25)`. -/
theorem fan_temp2dc_linear_spec (c : FanConf) (hlin : c.linear = true) :
    (c.lv0 < c.lv3 → fan_temp2dc c c.lv0 = 25 ∧ fan_temp2dc c c.lv3 = 100)
  ∧ (∀ t, 25 ≤ fan_temp2dc c t ∧ fan_temp2dc c t ≤ 100)
  ∧ (c.lv3 ≤ c.lv0 → ∀ t, fan_temp2dc c t = min 100 (max ((t - c.lv0) + 25) 25)) := by
  refine ⟨?_, ?_, ?_⟩
  · intro hspan
    have hd : (0 : ℚ) < c.lv3 - c.lv0 := sub_pos.mpr hspan
    constructor
    · simp only [fan_temp2dc, hlin, if_true, if_pos hd]
      norm_num
    · simp only [fan_temp2dc, hlin, if_true, if_pos hd]
      rw [div_mul_cancel₀ _ (ne_of_gt hd)]
      norm_num
  · intro t
    simp only [fan_temp2dc, hlin, if_true]
    constructor
    · exact le_min (by norm_num) (le_max_right _ _)
    · exact min_le_left _ _
  · intro hspan t
    have hd : ¬ (0 : ℚ) < c.lv3 - c.lv0 := by
      rw [not_lt]
      exact sub_nonpos.mpr hspan
    simp only [fan_temp2dc, hlin, if_true, if_neg hd, one_mul]

/-- Witness for `fan_temp2dc_linear_spec` at the default anchors with
`linear = true`: the two anchor values and the clamp at 60 degrees. -/
theorem fan_temp2dc_linear_spec_witness :
    (fan_temp2dc confLin confLin.lv0 = 25 ∧ fan_temp2dc confLin confLin.lv3 = 100)
  ∧ (25 ≤ fan_temp2dc confLin 60 ∧ fan_temp2dc confLin 60 ≤ 100) :=
  ⟨(fan_temp2dc_linear_spec confLin rfl).1 (by decide),
   (fan_temp2dc_linear_spec confLin rfl).2.1 60⟩

/-- Claim C8: the first sample of a device returns rx = tx = 0 and only
establishes the baseline; every subsequent sample taken at a distinct
time returns the counter delta divided by the elapsed time divided by
1024·1024 (MB/s); and in both cases the cached previous sample is
replaced unconditionally by the current one. -/
theorem get_interface_io_rate_spec :
    (∀ raw, get_interface_io_rate none raw = Except.ok ({ rx := 0, tx := 0 }, raw))
  ∧ ∀ p raw, raw.time ≠ p.time →
      get_interface_io_rate (some p) raw =
        Except.ok
          ({ rx := (((raw.rx - p.rx : ℤ) : ℚ) / (raw.time - p.time)) / (1024 * 1024),
             tx := (((raw.tx - p.tx : ℤ) : ℚ) / (raw.time - p.time)) / (1024 * 1024) },
           raw) := by
  constructor
  · intro raw
    rfl
  · intro p raw h
    have hdur : raw.time - p.time ≠ 0 := sub_ne_zero.mpr h
    have hdiv : ∀ x d : ℚ, x / d / 1024 / 1024 = x / d / (1024 * 1024) := by
      intro x d
      rw [div_div]
    simp only [get_interface_io_rate, if_neg hdur, hdiv]

/-- Witness for `get_interface_io_rate_spec`: a baseline at time 0 and
a second sample two seconds later. -/
theorem get_interface_io_rate_spec_witness :
    get_interface_io_rate (some prevRawEx) currRawEx =
      Except.ok
        ({ rx := (((currRawEx.rx - prevRawEx.rx : ℤ) : ℚ) /
              (currRawEx.time - prevRawEx.time)) / (1024 * 1024),
           tx := (((currRawEx.tx - prevRawEx.tx : ℤ) : ℚ) /
              (currRawEx.time - prevRawEx.time)) / (1024 * 1024) },
         currRawEx) :=
  get_interface_io_rate_spec.2 prevRawEx currRawEx (by decide)

/-- Claim C2 (code-bug evidence): the source divides by the elapsed
time with no guard, so two samples of the same device with equal
timestamps make `misc.get_interface_io_rate` raise a
`ZeroDivisionError` instead of keeping the previous rates. -/
theorem interface_rate_zero_elapsed_raises :
    get_interface_io_rate (some prevSampleEx) currSampleEx = Except.error () := by
  have h : currSampleEx.time - prevSampleEx.time = 0 := by norm_num [currSampleEx, prevSampleEx]
  simp only [get_interface_io_rate, if_pos h]

/-- Claim C1 (counterexample): with the default thresholds
(`size = 18`, `wait = 7`), the window consisting of a one, 18 zeros and
7 ones matches both the `press` and the `click` pattern, yet the
classifier emits `click`, not `press`, because the pattern dictionary
of `misc.watch_key` is iterated in insertion order click, twice,
press. -/
theorem read_key_priority_counterexample :
    match_press 18 pressClickWindowEx = true ∧
    match_click 7 pressClickWindowEx = true ∧
    read_key_classify 7 18 pressClickWindowEx = some KeyAction.click ∧
    read_key_classify 7 18 pressClickWindowEx ≠ some KeyAction.press := by
  decide

/-- Claim C1 (amended): the classifier of `misc.read_key` tests the
patterns in the fixed insertion order of the dictionary built by
`misc.watch_key` — click, then twice, then press — so on a window
matching several patterns, click takes precedence over twice and twice
over press. -/
theorem read_key_classify_order (wait size : ℕ) (s : List Bool) :
    (match_click wait s = true → read_key_classify wait size s = some KeyAction.click)
  ∧ (match_click wait s = false → match_twice s = true →
      read_key_classify wait size s = some KeyAction.twice)
  ∧ (match_click wait s = false → match_twice s = false → match_press size s = true →
      read_key_classify wait size s = some KeyAction.press) := by
  refine ⟨?_, ?_, ?_⟩
  · intro h1
    simp [read_key_classify, h1]
  · intro h1 h2
    simp [read_key_classify, h1, h2]
  · intro h1 h2 h3
    simp [read_key_classify, h1, h2, h3]

/-- Witness for `read_key_classify_order` on the concrete window
matching both `press` and `click`. -/
theorem read_key_classify_order_witness :
    read_key_classify 7 18 pressClickWindowEx = some KeyAction.click :=
  (read_key_classify_order 7 18 pressClickWindowEx).1 (by decide)

/-- Claim C9 (counterexample): with the default press threshold
(`size = int(1.8 * 10) = 18`), feeding 19 consecutive ones leaves the
window of `misc.read_key` at length 19, exceeding the claimed capacity
of `pressSamples = 18` bits. -/
theorem read_key_window_counterexample :
    (read_key_run 18 (List.replicate 19 true)).length = 19 ∧
    ¬ (read_key_run 18 (List.replicate 19 true)).length ≤ 18 := by
  decide

/-- Claim C9 (amended): the window is rebuilt every sample tick by
trimming to the last `size` bits and appending the newest bit, so for
any positive `size = int(pressThreshold * 10)` its length never
exceeds `size + 1` bits (and the bound `size + 1` is reached: the
`press` regex `1+0{size,}` needs exactly those `size + 1` samples). -/
theorem read_key_window_capacity (size : ℕ) (hsize : 1 ≤ size) (bits : List Bool) :
    (read_key_run size bits).length ≤ size + 1 := by
  have hstep : ∀ (s : List Bool) (b : Bool), (read_key_window size s b).length ≤ size + 1 := by
    intro s b
    have hpos : ¬ size = 0 := by omega
    simp only [read_key_window, if_neg hpos, List.length_append, List.length_drop,
      List.length_cons, List.length_nil]
    omega
  have hfold : ∀ (l : List Bool) (s : List Bool), s.length ≤ size + 1 →
      (l.foldl (read_key_window size) s).length ≤ size + 1 := by
    intro l
    induction l with
    | nil => intro s hs; exact hs
    | cons b bs ih =>
      intro s _
      exact ih (read_key_window size s b) (hstep s b)
  exact hfold bits [] (by simp)

/-- Witness for `read_key_window_capacity` at the default threshold and
the 19-ones input that attains the bound. -/
theorem read_key_window_capacity_witness :
    (read_key_run 18 (List.replicate 19 true)).length ≤ 18 + 1 :=
  read_key_window_capacity 18 (by decide) (List.replicate 19 true)

/-- Claim C3 (counterexample): processing an advance message for a page
whose text generation raises still executes `disp_show()` — the
display write sits after the `try`/`except`, so it is not conditional
on the text generation having succeeded. -/
theorem display_error_still_writes :
    failingPage.get_page_text true = Except.error () ∧
    display_process_step displayStateEx [] 100 10 5 true =
      Except.ok ({ display_list := [], last_page := some failingPage,
                   next_time := 100 + 10, refresh_time := 100 + 5 },
                 [Effect.logError, Effect.dispShow]) ∧
    Effect.dispShow ∈ [Effect.logError, Effect.dispShow] := by
  refine ⟨rfl, rfl, by simp⟩

/-- Claim C3 (amended): when the text generation of a page raises while the
consumer processes a queue message, the error is logged, the text
render is skipped (no `draw.text` effect) and the loop continues with
updated state; since no text was drawn the display is not half-drawn —
but the lock-protected display write `disp_show()` is still performed
(blanking the screen), rather than proceeding only on success. -/
theorem display_process_render_error (s : DisplayState) (regen : List Page)
    (now sliderDur refreshPeriod : ℚ) (p : Page) (rest : List Page)
    (hdl : s.display_list = p :: rest)
    (herr : p.get_page_text true = Except.error ()) :
    display_process_step s regen now sliderDur refreshPeriod true =
      Except.ok ({ display_list := rest, last_page := some p,
                   next_time := now + sliderDur, refresh_time := now + refreshPeriod },
                 [Effect.logError, Effect.dispShow]) := by
  simp [display_process_step, render_effects, hdl, herr]

/-- Witness for `display_process_render_error` on the concrete failing
page. -/
theorem display_process_render_error_witness :
    display_process_step displayStateEx [] 100 10 5 true =
      Except.ok ({ display_list := [], last_page := some failingPage,
                   next_time := 100 + 10, refresh_time := 100 + 5 },
                 [Effect.logError, Effect.dispShow]) :=
  display_process_render_error displayStateEx [] 100 10 5 failingPage [] rfl rfl

/-- Claim C4: a refresh period of 0 falsifies the loop guard of
`oled.refresh_display`, so the refresh loop never enqueues any
`False` message, while `oled.auto_slider` keeps enqueueing one `True`
message per slider period: its k-th loop message is sent at
`t0 + (k+1)·d`. -/
theorem refresh_disabled_slider_continues :
    (∀ times rt, refresh_display_run 0 times rt = [])
  ∧ ∀ (d t0 : ℚ) (n : ℕ), d ≠ 0 →
      auto_slider_run true d n t0 =
        (List.range n).map fun k : ℕ => (t0 + ((k : ℚ) + 1) * d, true) := by
  constructor
  · intro times rt
    cases times <;> simp [refresh_display_run]
  · intro d t0 n hd
    induction n generalizing t0 with
    | zero => simp [auto_slider_run]
    | succ n ih =>
      rw [auto_slider_run, if_pos rfl, if_neg hd, ih (t0 + d), List.range_succ_eq_map,
        List.map_cons, List.map_map]
      congr 1
      · simp only [Nat.cast_zero, Prod.mk.injEq, and_true]
        ring
      · refine List.map_congr_left ?_
        intro k _
        simp only [Function.comp_apply, Prod.mk.injEq, and_true]
        push_cast
        ring

/-- Witness for `refresh_disabled_slider_continues`: two slider
iterations with period 10 starting at time 0. -/
theorem refresh_disabled_slider_continues_witness :
    auto_slider_run true 10 2 0 =
      (List.range 2).map fun k : ℕ => ((0 : ℚ) + ((k : ℚ) + 1) * 10, true) :=
  refresh_disabled_slider_continues.2 10 0 2 (by decide)

/-- Claim C10: `oled.auto_slider` enqueues exactly one `True` message
(at startup time `t0`) before first checking the auto-advance flag, so
an initial page display is always triggered; when auto-advance is off
that startup message is the only message the loop ever produces. -/
theorem auto_slider_initial_message (d : ℚ) (n : ℕ) (t0 : ℚ) :
    (∀ auto, (auto_slider_events auto d n t0).head? = some (t0, true))
  ∧ auto_slider_events false d n t0 = [(t0, true)] := by
  constructor
  · intro auto
    rfl
  · cases n <;> simp [auto_slider_events, auto_slider_run]

/-- Claim C5: along any run of the fan polling loop, successive
recomputations of the duty cycle are strictly more than 5 seconds
apart (so at least 5 seconds elapse since the last computation, and at
most one recomputation falls in any 5-second window, regardless of
call frequency), starting from the cached `time` value; and successive
duty cycles written to the PWM hardware always differ, starting from
the cached last-written value. -/
theorem fan_rate_limit_and_write_on_change (c : FanConf) (events : List (ℚ × ℚ × Bool))
    (cache : DcCache) (pwm : Option ℚ) :
    List.Chain' (fun a b => a + 5 < b) (cache.time :: (run_fan c events cache pwm).1)
  ∧ List.Chain' (fun a b => a ≠ b) (pwm.toList ++ (run_fan c events cache pwm).2) := by
  induction events generalizing cache pwm with
  | nil =>
    constructor
    · simp [run_fan]
    · cases pwm <;> simp [run_fan]
  | cons e rest ih =>
    obtain ⟨now, temp, r⟩ := e
    by_cases hr : r = false
    · have hg : get_dc c r now temp cache = (some (1 / 10), cache) := by
        simp [get_dc, hr]
      by_cases hw : pwm = some (1 / 10)
      · have hcw : change_dc (1 / 10) pwm = (pwm, none) := by
          unfold change_dc
          rw [if_neg (fun hcon => hcon hw), hw]
        simp only [run_fan, hg, hcw, if_pos rfl]
        exact ih cache pwm
      · have hcw : change_dc (1 / 10) pwm = (some (1 / 10), some (1 - 1 / 10 / 100)) := by
          unfold change_dc
          rw [if_pos hw]
        simp only [run_fan, hg, hcw, if_pos rfl]
        refine ⟨(ih cache (some (1 / 10))).1, ?_⟩
        have h2 := (ih cache (some (1 / 10))).2
        cases pwm with
        | none => simpa using h2
        | some v =>
          have hv : v ≠ 1 / 10 := by
            intro h
            exact hw (by rw [h])
          simpa [List.chain'_cons] using And.intro hv (by simpa using h2)
    · have hr' : r = true := by
        cases r
        · exact absurd rfl hr
        · rfl
      by_cases ht : now - cache.time > 5
      · have hg : get_dc c r now temp cache =
            (some (fan_temp2dc c temp), { time := now, dc := some (fan_temp2dc c temp) }) := by
          simp [get_dc, hr', ht]
        have hne : ¬ ({ time := now, dc := some (fan_temp2dc c temp)} : DcCache).time = cache.time := by
          simp only
          intro h
          rw [h] at ht
          linarith
        by_cases hw : pwm = some (fan_temp2dc c temp)
        · have hcw : change_dc (fan_temp2dc c temp) pwm = (pwm, none) := by
            unfold change_dc
            rw [if_neg (fun hcon => hcon hw), hw]
          simp only [run_fan, hg, hcw, if_neg hne]
          constructor
          · refine List.chain'_cons.mpr ⟨by linarith, ?_⟩
            exact (ih { time := now, dc := some (fan_temp2dc c temp) } pwm).1
          · exact (ih { time := now, dc := some (fan_temp2dc c temp) } pwm).2
        · have hcw : change_dc (fan_temp2dc c temp) pwm =
              (some (fan_temp2dc c temp), some (1 - fan_temp2dc c temp / 100)) := by
            unfold change_dc
            rw [if_pos hw]
          simp only [run_fan, hg, hcw, if_neg hne]
          constructor
          · refine List.chain'_cons.mpr ⟨by linarith, ?_⟩
            exact (ih { time := now, dc := some (fan_temp2dc c temp) }
              (some (fan_temp2dc c temp))).1
          · have h2 := (ih { time := now, dc := some (fan_temp2dc c temp) }
              (some (fan_temp2dc c temp))).2
            cases pwm with
            | none => simpa using h2
            | some v =>
              have hv : v ≠ fan_temp2dc c temp := by
                intro h
                exact hw (by rw [h])
              simpa [List.chain'_cons] using And.intro hv (by simpa using h2)
      · cases hdc : cache.dc with
        | none =>
          have hg : get_dc c r now temp cache = (none, cache) := by
            simp [get_dc, hr', ht, hdc]
          simp only [run_fan, hg]
          constructor
          · simp
          · cases pwm <;> simp
        | some d0 =>
          have hg : get_dc c r now temp cache = (some d0, cache) := by
            simp [get_dc, hr', ht, hdc]
          by_cases hw : pwm = some d0
          · have hcw : change_dc d0 pwm = (pwm, none) := by
              unfold change_dc
              rw [if_neg (fun hcon => hcon hw), hw]
            simp only [run_fan, hg, hcw, if_pos rfl]
            exact ih cache pwm
          · have hcw : change_dc d0 pwm = (some d0, some (1 - d0 / 100)) := by
              unfold change_dc
              rw [if_pos hw]
            simp only [run_fan, hg, hcw, if_pos rfl]
            refine ⟨(ih cache (some d0)).1, ?_⟩
            have h2 := (ih cache (some d0)).2
            cases pwm with
            | none => simpa using h2
            | some v =>
              have hv : v ≠ d0 := by
                intro h
                exact hw (by rw [h])
              simpa [List.chain'_cons] using And.intro hv (by simpa using h2)

end RockpiPenta
